import Mathlib

/-!
Verification of the resilient inter-service communication layer of the
grofast backend: the shared circuit breaker
(`backend_microservices/microservices/shared/custom_circuit_breaker.py`),
the resilient HTTP client
(`backend_microservices/microservices/shared/http_client.py`) and the
service client manager / graceful-call helper
(`backend_microservices/microservices/shared/service_clients.py`).

Timestamps are modelled as `Int` (Python `time.time()` returns a positive
wall-clock value; the Python truthiness test `self.last_failure_time and …`
is embedded as `t ≠ 0`).  Float delays are modelled as `ℚ`.
-/

set_option autoImplicit false

/-! ### CircuitBreaker (custom_circuit_breaker.py, lines 9-87) -/

/-- `CircuitState` enum (custom_circuit_breaker.py lines 9-12). -/
inductive CircuitState
  | CLOSED
  | OPEN
  | HALF_OPEN
  deriving DecidableEq, Repr

/-- The mutable attributes of `CircuitBreaker` (custom_circuit_breaker.py
lines 17-32).  `expected_exception` is represented by tagging each call
outcome (`CallOutcome.expectedFailure` vs `.unexpectedFailure`), and the
`name` string (used only in log messages) is omitted. -/
structure CircuitBreaker where
  failure_threshold : Nat
  recovery_timeout : Int
  failure_count : Nat
  last_failure_time : Option Int
  state : CircuitState
  deriving DecidableEq, Repr

/-- `CircuitBreaker.__init__` (lines 18-32): `failure_count = 0`,
`last_failure_time = None`, `state = CLOSED`. -/
def CircuitBreaker.init (failure_threshold : Nat) (recovery_timeout : Int) : CircuitBreaker :=
  { failure_threshold := failure_threshold
    recovery_timeout := recovery_timeout
    failure_count := 0
    last_failure_time := none
    state := CircuitState.CLOSED }

/-- `_should_attempt_reset` (lines 34-40): `state == OPEN and
self.last_failure_time and time.time() - self.last_failure_time >=
self.recovery_timeout`.  The Python truthiness of the float
`last_failure_time` is embedded as `t ≠ 0`. -/
def CircuitBreaker.should_attempt_reset (b : CircuitBreaker) (now : Int) : Bool :=
  decide (b.state = CircuitState.OPEN) &&
    (match b.last_failure_time with
     | none => false
     | some t => decide (t ≠ 0) && decide (b.recovery_timeout ≤ now - t))

/-- `_on_success` (lines 42-46): reset `failure_count` to 0 and state to
`CLOSED`. -/
def CircuitBreaker.on_success (b : CircuitBreaker) : CircuitBreaker :=
  { b with failure_count := 0, state := CircuitState.CLOSED }

/-- `_on_failure` (lines 48-55): increment `failure_count`, stamp
`last_failure_time`, and open the circuit when `failure_count >=
failure_threshold`. -/
def CircuitBreaker.on_failure (b : CircuitBreaker) (now : Int) : CircuitBreaker :=
  let b' := { b with failure_count := b.failure_count + 1, last_failure_time := some now }
  if b'.failure_count ≥ b'.failure_threshold then
    { b' with state := CircuitState.OPEN }
  else b'

/-- Behaviour of the protected function passed to `CircuitBreaker.call`:
it returns, raises an exception matching `expected_exception`, or raises
any other exception. -/
inductive CallOutcome
  | success
  | expectedFailure
  | unexpectedFailure
  deriving DecidableEq, Repr

/-- Result of `CircuitBreaker.call`: rejected with `CircuitBreakerError`
(line 67), returned normally (line 78), or re-raised the function's
exception (lines 83 and 87). -/
inductive CallResult
  | rejected
  | returned
  | raisedExpected
  | raisedUnexpected
  deriving DecidableEq, Repr

/-- The reset check at the top of `call` (lines 61-63): if
`_should_attempt_reset()`, set state to `HALF_OPEN`. -/
def CircuitBreaker.reset_step (b : CircuitBreaker) (now : Int) : CircuitBreaker :=
  if b.should_attempt_reset now then { b with state := CircuitState.HALF_OPEN } else b

/-- `CircuitBreaker.call` (lines 57-87): attempt reset, reject while
`OPEN`, then run the function; `_on_success` on return, `_on_failure` on
an `expected_exception`, and no state change on any other exception
(lines 84-87). -/
def CircuitBreaker.call (b : CircuitBreaker) (now : Int) (outcome : CallOutcome) :
    CallResult × CircuitBreaker :=
  let b1 := b.reset_step now
  if b1.state = CircuitState.OPEN then (CallResult.rejected, b1)
  else
    match outcome with
    | CallOutcome.success => (CallResult.returned, b1.on_success)
    | CallOutcome.expectedFailure => (CallResult.raisedExpected, b1.on_failure now)
    | CallOutcome.unexpectedFailure => (CallResult.raisedUnexpected, b1)

/-- A run of consecutive `expected_exception` failures through `call`,
one at each listed timestamp. -/
def applyFailures (b : CircuitBreaker) (times : List Int) : CircuitBreaker :=
  times.foldl (fun acc t => (acc.call t CallOutcome.expectedFailure).2) b

/-- A breaker driven from its initial state by an arbitrary list of
`(timestamp, outcome)` events through `call`. -/
def runTrace (failure_threshold : Nat) (recovery_timeout : Int)
    (events : List (Int × CallOutcome)) : CircuitBreaker :=
  events.foldl (fun b p => (b.call p.1 p.2).2) (CircuitBreaker.init failure_threshold recovery_timeout)

example : (CircuitBreaker.init 2 5).state = CircuitState.CLOSED := by decide
example : (applyFailures (CircuitBreaker.init 2 5) [1]).state = CircuitState.CLOSED := by decide
example : (applyFailures (CircuitBreaker.init 2 5) [1, 2]).state = CircuitState.OPEN := by decide
example : (runTrace 2 5 [(1, CallOutcome.expectedFailure), (2, CallOutcome.expectedFailure),
    (8, CallOutcome.success)]).state = CircuitState.CLOSED := by decide
example : ((runTrace 2 5 [(1, CallOutcome.expectedFailure), (2, CallOutcome.expectedFailure)]).call
    3 CallOutcome.success).1 = CallResult.rejected := by decide

/-! ### Error taxonomy and retry configuration (http_client.py, lines 15-76)

The `ServiceError` exception hierarchy of http_client.py lines 15-37 is
embedded as a record tagged with its kind: `ServiceUnavailableError ↦
unavailable`, `ServiceTimeoutError ↦ timeout`, `ServiceAuthenticationError ↦
authenticationFailed`, `ServiceValidationError ↦ validationFailed`, and the
base `ServiceError` ↦ `unclassified`. -/

inductive ErrorKind
  | unavailable
  | timeout
  | authenticationFailed
  | validationFailed
  | unclassified
  deriving DecidableEq, Repr

/-- A classified service error (http_client.py lines 15-37): message plus
`service_name`, `status_code`, `response_body` attributes. -/
structure ServiceError where
  kind : ErrorKind
  message : String
  service_name : Option String
  status_code : Option Nat
  response_body : Option String
  deriving DecidableEq, Repr

/-- `RetryStrategy` enum (http_client.py lines 39-43). -/
inductive RetryStrategy
  | EXPONENTIAL_BACKOFF
  | FIXED_DELAY
  | LINEAR_BACKOFF
  deriving DecidableEq, Repr

/-- `EnhancedRetryConfig` (http_client.py lines 45-65).  The
`retryable_exceptions` list is never read by `_should_retry` or
`_execute_with_retry` and is omitted. -/
structure EnhancedRetryConfig where
  max_attempts : Nat
  base_delay : ℚ
  max_delay : ℚ
  strategy : RetryStrategy
  retryable_status_codes : List Nat
  deriving DecidableEq, Repr

/-- The default `EnhancedRetryConfig()` (lines 47-60): 3 attempts, base
delay 1.0, max delay 60.0, exponential backoff, retryable status codes
`[502, 503, 504, 429]`. -/
def EnhancedRetryConfig.default : EnhancedRetryConfig :=
  { max_attempts := 3
    base_delay := 1
    max_delay := 60
    strategy := RetryStrategy.EXPONENTIAL_BACKOFF
    retryable_status_codes := [502, 503, 504, 429] }

/-- `EnhancedRetryConfig.get_delay` (lines 67-76). -/
def EnhancedRetryConfig.get_delay (cfg : EnhancedRetryConfig) (attempt : Nat) : ℚ :=
  let delay : ℚ :=
    match cfg.strategy with
    | RetryStrategy.EXPONENTIAL_BACKOFF => cfg.base_delay * 2 ^ (attempt - 1)
    | RetryStrategy.LINEAR_BACKOFF => cfg.base_delay * (attempt : ℚ)
    | RetryStrategy.FIXED_DELAY => cfg.base_delay
  min delay cfg.max_delay

example : EnhancedRetryConfig.default.get_delay 1 = 1 := by norm_num [EnhancedRetryConfig.get_delay, EnhancedRetryConfig.default]
example : EnhancedRetryConfig.default.get_delay 3 = 4 := by norm_num [EnhancedRetryConfig.get_delay, EnhancedRetryConfig.default]

/-! ### Error classification and the retry loop (http_client.py, lines 78-266) -/

/-- An HTTP response as seen by `_execute_with_retry`: status code and
body text. -/
structure Response where
  status_code : Nat
  text : String
  deriving DecidableEq, Repr

/-- What one transport attempt (`client.request` inside the `try` block,
http_client.py lines 212-213) does: produce a response, or raise
`httpx.TimeoutException`, an `httpx.ConnectError`/`httpx.NetworkError`,
or some other exception. -/
inductive TransportOutcome
  | response (r : Response)
  | timeoutExc
  | connectExc (msg : String)
  | otherExc (msg : String)
  deriving DecidableEq, Repr

/-- An exception arriving at the `except Exception as e` handler of
`_execute_with_retry` (line 243): the httpx exceptions, a `ServiceError`
raised inside the `try` block itself (line 233), or anything else. -/
inductive PyExc
  | httpxTimeout
  | httpxConnect (msg : String)
  | raisedServiceError (e : ServiceError)
  | other (msg : String)
  deriving DecidableEq, Repr

/-- The request-tracking attributes of `ResilientHttpClient`
(http_client.py lines 97-100). -/
structure ClientState where
  request_count : Nat
  error_count : Nat
  last_success_time : Option Int
  deriving DecidableEq, Repr

/-- A failure propagating out of `_execute_with_retry`: either a raised
`ServiceError`, or a Python `AttributeError` from accessing an attribute
(`is_open`, `record_failure`, `record_success`) that the shared
`CircuitBreaker` class does not define. -/
inductive ExecFailure
  | attributeError (attr : String)
  | serviceError (e : ServiceError)
  deriving DecidableEq, Repr

/-- `true` exactly when the failure is a raised `ServiceError`. -/
def ExecFailure.isServiceError : ExecFailure → Bool
  | ExecFailure.serviceError _ => true
  | ExecFailure.attributeError _ => false

/-- The Python slice `text[:n]`: at most the first `n` characters.  For
`text.length ≤ n` the slice is the whole string (the length test keeps
concrete evaluation shallow). -/
def pySlice (text : String) (n : Nat) : String :=
  if text.length ≤ n then text else String.mk (text.toList.take n)

/-- The response branch of `_classify_error` (http_client.py lines
130-168): truncate the body to 500 characters (or substitute
"No response body"), then dispatch on the status code. -/
def classify_response_error (service_name : String) (status_code : Nat) (text : String) :
    ServiceError :=
  let response_text := if text = "" then "No response body" else pySlice text 500
  if status_code = 401 then
    { kind := ErrorKind.authenticationFailed
      message := "Authentication failed for " ++ service_name
      service_name := some service_name
      status_code := some status_code
      response_body := some response_text }
  else if status_code = 400 then
    { kind := ErrorKind.validationFailed
      message := "Request validation failed for " ++ service_name
      service_name := some service_name
      status_code := some status_code
      response_body := some response_text }
  else if status_code = 502 ∨ status_code = 503 ∨ status_code = 504 then
    { kind := ErrorKind.unavailable
      message := service_name ++ " is temporarily unavailable (HTTP " ++ toString status_code ++ ")"
      service_name := some service_name
      status_code := some status_code
      response_body := some response_text }
  else if status_code = 429 then
    { kind := ErrorKind.unavailable
      message := service_name ++ " rate limit exceeded (HTTP " ++ toString status_code ++ ")"
      service_name := some service_name
      status_code := some status_code
      response_body := some response_text }
  else
    { kind := ErrorKind.unclassified
      message := service_name ++ " returned HTTP " ++ toString status_code
      service_name := some service_name
      status_code := some status_code
      response_body := some response_text }

/-- The exception branch of `_classify_error` (http_client.py lines
113-128): `httpx.TimeoutException ↦ ServiceTimeoutError`,
`httpx.ConnectError`/`httpx.NetworkError ↦ ServiceUnavailableError`, and
every other exception — including a `ServiceError` raised inside the
`try` block — to the plain `ServiceError` "Unexpected error" with no
status code and no response body.  (The source message interpolates
`self.timeout` for the timeout case; the numeric rendering is elided.) -/
def classify_exception_error (service_name : String) (e : PyExc) : ServiceError :=
  match e with
  | PyExc.httpxTimeout =>
    { kind := ErrorKind.timeout
      message := "Request to " ++ service_name ++ " timed out"
      service_name := some service_name
      status_code := none
      response_body := none }
  | PyExc.httpxConnect m =>
    { kind := ErrorKind.unavailable
      message := "Unable to connect to " ++ service_name ++ ": " ++ m
      service_name := some service_name
      status_code := none
      response_body := none }
  | PyExc.raisedServiceError e0 =>
    { kind := ErrorKind.unclassified
      message := "Unexpected error communicating with " ++ service_name ++ ": " ++ e0.message
      service_name := some service_name
      status_code := none
      response_body := none }
  | PyExc.other m =>
    { kind := ErrorKind.unclassified
      message := "Unexpected error communicating with " ++ service_name ++ ": " ++ m
      service_name := some service_name
      status_code := none
      response_body := none }

/-- `_should_retry` (http_client.py lines 172-189).  The Python truthiness
test `error.status_code and …` is embedded as `sc ≠ 0`. -/
def should_retry (cfg : EnhancedRetryConfig) (error : ServiceError) (attempt : Nat) : Bool :=
  if attempt ≥ cfg.max_attempts then false
  else if error.kind = ErrorKind.authenticationFailed ∨ error.kind = ErrorKind.validationFailed then
    false
  else if error.kind = ErrorKind.unavailable ∨ error.kind = ErrorKind.timeout then true
  else
    match error.status_code with
    | some sc => decide (sc ≠ 0) && decide (sc ∈ cfg.retryable_status_codes)
    | none => false

/-- Outcome of one iteration of the `for attempt in range(1, max+1)` loop
of `_execute_with_retry`: return a response, raise out of the loop, or
sleep and `continue` to the next attempt. -/
inductive IterResult
  | returned (r : Response)
  | raisedFinal (e : ExecFailure)
  | nextAttempt (last_error : ServiceError) (delay : ℚ)
  deriving DecidableEq, Repr

/-- The `except Exception as e` handler of `_execute_with_retry`
(http_client.py lines 243-260): classify, retry with backoff when
allowed, otherwise increment `_error_count`, touch the breaker, and
re-raise.  With a breaker attached, `self.circuit_breaker.record_failure()`
(line 259) is an attribute that the shared `CircuitBreaker` class does not
define, so the handler itself raises `AttributeError`. -/
def except_handler (cfg : EnhancedRetryConfig) (service_name : String)
    (breaker : Option CircuitBreaker) (attempt : Nat) (e : PyExc) (st : ClientState) :
    IterResult × ClientState :=
  let error := classify_exception_error service_name e
  if should_retry cfg error attempt && decide (attempt < cfg.max_attempts) then
    (IterResult.nextAttempt error (cfg.get_delay attempt), st)
  else
    let st := { st with error_count := st.error_count + 1 }
    match breaker with
    | some _ => (IterResult.raisedFinal (ExecFailure.attributeError "record_failure"), st)
    | none => (IterResult.raisedFinal (ExecFailure.serviceError error), st)

/-- One iteration of the attempt loop of `_execute_with_retry`
(http_client.py lines 206-260).  `_request_count` is incremented first
(line 207).  A status `≥ 400` that is not retried increments
`_error_count` and raises the classified error *inside* the `try` block
(lines 230-233), so that raise lands in the `except Exception` handler of
the same iteration; on success `_last_success_time` is stamped and
`record_success` is called (lines 236-238) — with a breaker attached that
attribute access raises inside the `try` block. -/
def one_attempt (cfg : EnhancedRetryConfig) (service_name : String)
    (breaker : Option CircuitBreaker) (attempt : Nat) (now : Int)
    (t : TransportOutcome) (st : ClientState) : IterResult × ClientState :=
  let st := { st with request_count := st.request_count + 1 }
  match t with
  | TransportOutcome.response r =>
    if r.status_code ≥ 400 then
      let error := classify_response_error service_name r.status_code r.text
      if should_retry cfg error attempt && decide (attempt < cfg.max_attempts) then
        (IterResult.nextAttempt error (cfg.get_delay attempt), st)
      else
        let st := { st with error_count := st.error_count + 1 }
        match breaker with
        | some _ =>
          except_handler cfg service_name breaker attempt
            (PyExc.other "AttributeError: record_failure") st
        | none => except_handler cfg service_name breaker attempt (PyExc.raisedServiceError error) st
    else
      let st := { st with last_success_time := some now }
      match breaker with
      | some _ =>
        except_handler cfg service_name breaker attempt
          (PyExc.other "AttributeError: record_success") st
      | none => (IterResult.returned r, st)
  | TransportOutcome.timeoutExc => except_handler cfg service_name breaker attempt PyExc.httpxTimeout st
  | TransportOutcome.connectExc m =>
    except_handler cfg service_name breaker attempt (PyExc.httpxConnect m) st
  | TransportOutcome.otherExc m =>
    except_handler cfg service_name breaker attempt (PyExc.other m) st

/-- Result of running the attempt loop to completion. -/
inductive LoopResult
  | ok (r : Response)
  | err (e : ExecFailure)
  | exhausted (last_error : Option ServiceError)
  deriving DecidableEq, Repr

/-- The attempt loop of `_execute_with_retry`, run from attempt number
`attempt` with `remaining` iterations left; `slept` accumulates the
`asyncio.sleep` delays consumed so far.  `transport` gives the outcome of
the network attempt at each attempt number and `now` its wall-clock
time. -/
def retry_loop (cfg : EnhancedRetryConfig) (service_name : String)
    (breaker : Option CircuitBreaker) (transport : Nat → TransportOutcome) (now : Nat → Int) :
    Nat → Nat → Option ServiceError → ClientState → ℚ → LoopResult × ClientState × ℚ
  | _, 0, last_error, st, slept => (LoopResult.exhausted last_error, st, slept)
  | attempt, rem + 1, _, st, slept =>
    match one_attempt cfg service_name breaker attempt (now attempt) (transport attempt) st with
    | (IterResult.returned r, st') => (LoopResult.ok r, st', slept)
    | (IterResult.raisedFinal e, st') => (LoopResult.err e, st', slept)
    | (IterResult.nextAttempt e d, st') =>
      retry_loop cfg service_name breaker transport now (attempt + 1) rem (some e) st' (slept + d)

/-- `_execute_with_retry` (http_client.py lines 191-266).  Line 201 reads
`self.circuit_breaker.is_open`, an attribute the shared `CircuitBreaker`
class (custom_circuit_breaker.py, attributes `failure_threshold`,
`recovery_timeout`, `expected_exception`, `name`, `failure_count`,
`last_failure_time`, `state`) does not define: with any breaker attached
the call raises `AttributeError` before the first attempt, outside the
`try` block.  Without a breaker, the loop runs for
`attempt = 1 .. max_attempts` and on fall-through raises `last_error` or
a fresh plain `ServiceError` (lines 262-266). -/
def execute_with_retry (cfg : EnhancedRetryConfig) (service_name : String)
    (breaker : Option CircuitBreaker) (transport : Nat → TransportOutcome) (now : Nat → Int)
    (st : ClientState) : Except ExecFailure Response × ClientState × ℚ :=
  match breaker with
  | some _ => (Except.error (ExecFailure.attributeError "is_open"), st, 0)
  | none =>
    match retry_loop cfg service_name none transport now 1 cfg.max_attempts none st 0 with
    | (LoopResult.ok r, st', slept) => (Except.ok r, st', slept)
    | (LoopResult.err e, st', slept) => (Except.error e, st', slept)
    | (LoopResult.exhausted (some e), st', slept) =>
      (Except.error (ExecFailure.serviceError e), st', slept)
    | (LoopResult.exhausted none, st', slept) =>
      (Except.error (ExecFailure.serviceError
        { kind := ErrorKind.unclassified
          message := "All retry attempts failed for " ++ service_name
          service_name := none
          status_code := none
          response_body := none }), st', slept)

/-- The body a verb method returns: the parsed JSON, or the
`{"raw_response": response.text}` fallback when `response.json()` raises
`json.JSONDecodeError` (http_client.py lines 286-290 and likewise for
post/put/delete). -/
inductive VerbResult (J : Type)
  | json (j : J)
  | rawResponse (text : String)

/-- A verb method (`get`/`post`/`put`/`delete`, http_client.py lines
268-360): run `_execute_with_retry`, then parse the body, falling back to
the raw text on a decode error.  `parse` stands for `response.json()`,
total with `none` for the caught `json.JSONDecodeError`. -/
def verb_call {J : Type} (parse : String → Option J) (cfg : EnhancedRetryConfig)
    (service_name : String) (breaker : Option CircuitBreaker)
    (transport : Nat → TransportOutcome) (now : Nat → Int) (st : ClientState) :
    Except ExecFailure (VerbResult J) × ClientState × ℚ :=
  match execute_with_retry cfg service_name breaker transport now st with
  | (Except.ok r, st', slept) =>
    (Except.ok (match parse r.text with
      | some j => VerbResult.json j
      | none => VerbResult.rawResponse r.text), st', slept)
  | (Except.error e, st', slept) => (Except.error e, st', slept)

/-! ### Factory (http_client.py, lines 392-432) -/

/-- The configuration record held by a `ResilientHttpClient`
(http_client.py lines 81-102).  The `base_url.rstrip('/')`
normalisation, `default_headers` and the tracking counters (modelled
separately as `ClientState`) are not needed by the claims. -/
structure ResilientHttpClient where
  base_url : String
  service_name : String
  timeout : ℚ
  circuit_breaker : Option CircuitBreaker
  retry_config : EnhancedRetryConfig
  deriving DecidableEq, Repr

/-- The parameter names accepted by `CircuitBreaker.__init__`
(custom_circuit_breaker.py lines 18-24). -/
def circuit_breaker_init_params : List String :=
  ["failure_threshold", "recovery_timeout", "expected_exception", "name"]

/-- The keyword-argument names `create_service_client` passes to
`CircuitBreaker(...)` (http_client.py lines 405-409). -/
def create_service_client_breaker_kwargs : List String :=
  ["failure_threshold", "timeout_duration", "expected_exception"]

/-- A Python-level error escaping a constructor call: `TypeError` for an
unexpected keyword argument, naming the offending keyword. -/
inductive PyError
  | typeError (unexpected_kwarg : String)
  deriving DecidableEq, Repr

/-- The default of the `enable_circuit_breaker` parameter of
`create_service_client` (http_client.py line 398). -/
def create_service_client_default_enable : Bool := true

/-- `create_service_client` (http_client.py lines 393-432).  When
`enable_circuit_breaker` is set it calls `CircuitBreaker(failure_threshold=5,
timeout_duration=60, expected_exception=ServiceError)`; Python checks each
keyword against the parameters of `CircuitBreaker.__init__` and raises
`TypeError` on the first unexpected one.  (The `Except.ok` branch under
`enable_circuit_breaker` is unreachable because `timeout_duration` is not
an accepted parameter; its value renders the intended 5/60 breaker.) -/
def create_service_client (service_name base_url : String) (timeout : ℚ) (max_retries : Nat)
    (enable_circuit_breaker : Bool) : Except PyError ResilientHttpClient :=
  let retry_config : EnhancedRetryConfig :=
    { max_attempts := max_retries
      base_delay := 1
      max_delay := 30
      strategy := RetryStrategy.EXPONENTIAL_BACKOFF
      retryable_status_codes := [502, 503, 504, 429] }
  if enable_circuit_breaker then
    match create_service_client_breaker_kwargs.filter
        (fun k => !(circuit_breaker_init_params.contains k)) with
    | [] =>
      Except.ok
        { base_url := base_url, service_name := service_name, timeout := timeout
          circuit_breaker := some (CircuitBreaker.init 5 60), retry_config := retry_config }
    | k :: _ => Except.error (PyError.typeError k)
  else
    Except.ok
      { base_url := base_url, service_name := service_name, timeout := timeout
        circuit_breaker := none, retry_config := retry_config }

/-! ### ServiceClientManager (service_clients.py, lines 13-55) -/

/-- `ServiceClientManager` attributes (service_clients.py lines 16-19):
the clients dict, the configured URLs dict, and the `_initialized`
flag. -/
structure ServiceClientManager where
  clients : List (String × ResilientHttpClient)
  service_urls : List (String × String)
  initialized : Bool

/-- `ServiceClientManager.__init__` (lines 16-19). -/
def ServiceClientManager.new : ServiceClientManager :=
  { clients := [], service_urls := [], initialized := false }

/-- The manager's `initialize` method (service_clients.py lines 21-43;
renamed here):
entries with an empty URL are logged and skipped; for the rest
`create_service_client(service_name, base_url, **client_kwargs)` is
called inside `try`, and any construction exception is logged and the
entry skipped.  `enable_circuit_breaker` carries the effective value of
that keyword (its default being `create_service_client_default_enable`
when no `client_kwargs` override it). -/
def ServiceClientManager.initialize_clients (m : ServiceClientManager)
    (service_urls : List (String × String)) (enable_circuit_breaker : Bool) :
    ServiceClientManager :=
  let clients := service_urls.foldl (fun acc nu =>
    if nu.2 = "" then acc
    else
      match create_service_client nu.1 nu.2 30 3 enable_circuit_breaker with
      | Except.ok c => acc ++ [(nu.1, c)]
      | Except.error _ => acc) m.clients
  { m with service_urls := service_urls, clients := clients, initialized := true }

/-- `ServiceClientManager.get_client` (service_clients.py lines 45-55):
returns `None` before initialization, and otherwise `self._clients.get(name)`
— `None`, after logging an error, when the name has no client. -/
def ServiceClientManager.get_client (m : ServiceClientManager) (service_name : String) :
    Option ResilientHttpClient :=
  if !m.initialized then none
  else m.clients.lookup service_name

/-! ### GracefulServiceCall (service_clients.py, lines 302-336) -/

/-- How the `async with` body of a `GracefulServiceCall` terminates:
normally, with a raised `ServiceError` (any subclass), or with some other
exception. -/
inductive BodyOutcome
  | noExc
  | raisedServiceError (e : ServiceError)
  | raisedOther (msg : String)

/-- `GracefulServiceCall` state (service_clients.py lines 305-309).
`fallback_func` records the behaviour of the fallback producer when
invoked: absent, returns a value, or raises (with a message). -/
structure GracefulServiceCall (V : Type) where
  service_name : String
  fallback_func : Option (Except String V)
  error : Option ServiceError
  result : Option V

/-- `GracefulServiceCall.__init__` (lines 305-309): `error = None`,
`result = None`. -/
def GracefulServiceCall.init {V : Type} (service_name : String)
    (fallback_func : Option (Except String V)) : GracefulServiceCall V :=
  { service_name := service_name, fallback_func := fallback_func, error := none, result := none }

/-- `GracefulServiceCall.__aexit__` (service_clients.py lines 314-328):
on a `ServiceError` from the body, record it, run the fallback producer
(its own exception is logged and leaves `result` unset), and return
`True` to suppress propagation; on no exception or any other exception
type, return `False`. -/
def GracefulServiceCall.aexit {V : Type} (s : GracefulServiceCall V) (exc : BodyOutcome) :
    GracefulServiceCall V × Bool :=
  match exc with
  | BodyOutcome.raisedServiceError e =>
    let s1 := { s with error := some e }
    let s2 :=
      match s1.fallback_func with
      | none => s1
      | some (Except.ok v) => { s1 with result := some v }
      | some (Except.error _) => s1
    (s2, true)
  | BodyOutcome.noExc => (s, false)
  | BodyOutcome.raisedOther _ => (s, false)

/-- `has_error` (lines 330-332). -/
def GracefulServiceCall.has_error {V : Type} (s : GracefulServiceCall V) : Bool :=
  s.error.isSome

/-- `get_result` (lines 334-336). -/
def GracefulServiceCall.get_result {V : Type} (s : GracefulServiceCall V) : Option V :=
  s.result

/-! ### Theorems for the claims -/

/-- **C2.**  The claim says a call through a `ResilientClient` whose
breaker is `Open` within `recoveryTimeout` fails immediately with an
`Unavailable` `ServiceError`.  On the code, with *any* breaker attached
(whatever its state), `_execute_with_retry` reads
`self.circuit_breaker.is_open` (http_client.py line 201) — an attribute
the shared `CircuitBreaker` class does not define — so the call fails
immediately with `AttributeError`, not a `ServiceError`; zero attempts
are made (`request_count` unchanged) and zero retry delay is consumed. -/
theorem C2_breaker_present_attribute_error (cfg : EnhancedRetryConfig) (service_name : String)
    (b : CircuitBreaker) (transport : Nat → TransportOutcome) (now : Nat → Int)
    (st : ClientState) :
    execute_with_retry cfg service_name (some b) transport now st
      = (Except.error (ExecFailure.attributeError "is_open"), st, 0) := rfl

/-- **C3.**  `_classify_error` itself classifies a 401 response as
`ServiceAuthenticationError` carrying the status code and truncated body,
but the classified error is raised *inside* the `try` block
(http_client.py line 233) and caught by the broad `except Exception`
handler of the same iteration (line 243), which re-classifies it into the
plain "Unexpected error" `ServiceError` with no status code and no
response body — so the error finally raised to the caller is not the
status-classified one claimed. -/
theorem C3_classified_status_error_not_raised :
    (classify_response_error "auth-service" 401 "unauthorized").kind
      = ErrorKind.authenticationFailed
  ∧ (classify_response_error "auth-service" 401 "unauthorized").status_code = some 401
  ∧ (classify_response_error "auth-service" 401 "unauthorized").response_body
      = some "unauthorized"
  ∧ (execute_with_retry EnhancedRetryConfig.default "auth-service" none
      (fun _ => TransportOutcome.response ⟨401, "unauthorized"⟩) (fun _ => 1)
      ⟨0, 0, none⟩).1
    = Except.error (ExecFailure.serviceError
        { kind := ErrorKind.unclassified
          message :=
            "Unexpected error communicating with auth-service: Authentication failed for auth-service"
          service_name := some "auth-service"
          status_code := none
          response_body := none }) := by
  refine ⟨rfl, rfl, rfl, ?_⟩
  rfl

/-- **C9.**  One call against a transport that returns HTTP 400 runs a
single attempt (`request_count = 1`) but increments `_error_count` twice:
once at http_client.py line 230 before the classified error is raised into
the same iteration's `except` handler, and once again at line 257 — so
`errorCount ≤ requestCount` is violated after a single call on a fresh
client. -/
theorem C9_error_count_exceeds_request_count :
    (execute_with_retry EnhancedRetryConfig.default "cart-service" none
      (fun _ => TransportOutcome.response ⟨400, "bad request"⟩) (fun _ => 2)
      ⟨0, 0, none⟩).2.1.request_count = 1
  ∧ (execute_with_retry EnhancedRetryConfig.default "cart-service" none
      (fun _ => TransportOutcome.response ⟨400, "bad request"⟩) (fun _ => 2)
      ⟨0, 0, none⟩).2.1.error_count = 2
  ∧ ¬((execute_with_retry EnhancedRetryConfig.default "cart-service" none
      (fun _ => TransportOutcome.response ⟨400, "bad request"⟩) (fun _ => 2)
      ⟨0, 0, none⟩).2.1.error_count
     ≤ (execute_with_retry EnhancedRetryConfig.default "cart-service" none
      (fun _ => TransportOutcome.response ⟨400, "bad request"⟩) (fun _ => 2)
      ⟨0, 0, none⟩).2.1.request_count) := by
  refine ⟨rfl, rfl, ?_⟩
  decide

/-- **C10.**  With `enable_circuit_breaker` left at its default `True`,
`create_service_client` constructs
`CircuitBreaker(failure_threshold=5, timeout_duration=60, …)`;
`timeout_duration` is not a parameter of `CircuitBreaker.__init__`, so the
factory raises `TypeError` before returning a client, and consequently no
client obtained from the factory ever carries a circuit breaker. -/
theorem C10_factory_timeout_duration_type_error :
    (∀ (service_name base_url : String) (timeout : ℚ) (max_retries : Nat),
      create_service_client service_name base_url timeout max_retries
          create_service_client_default_enable
        = Except.error (PyError.typeError "timeout_duration"))
  ∧ (∀ (service_name base_url : String) (timeout : ℚ) (max_retries : Nat) (enable : Bool)
        (c : ResilientHttpClient),
      create_service_client service_name base_url timeout max_retries enable = Except.ok c →
        c.circuit_breaker = none) := by
  constructor
  · intro service_name base_url timeout max_retries
    rfl
  · intro service_name base_url timeout max_retries enable c h
    cases enable
    · injection h with h2
      subst h2
      rfl
    · injection h

/-- Witness for C10: evaluated at a concrete factory call. -/
theorem C10_factory_timeout_duration_type_error_witness :
    create_service_client "auth-service" "http://x" 30 3 create_service_client_default_enable
      = Except.error (PyError.typeError "timeout_duration")
  ∧ ({ base_url := "http://x", service_name := "auth-service", timeout := 30
       circuit_breaker := none
       retry_config :=
        { max_attempts := 3, base_delay := 1, max_delay := 30
          strategy := RetryStrategy.EXPONENTIAL_BACKOFF
          retryable_status_codes := [502, 503, 504, 429] } } :
      ResilientHttpClient).circuit_breaker = none :=
  ⟨C10_factory_timeout_duration_type_error.1 "auth-service" "http://x" 30 3,
   C10_factory_timeout_duration_type_error.2 "auth-service" "http://x" 30 3 false _ rfl⟩

/-- **C7 (counterexample).**  Scenario D on the code: after
`initialize({"a": "http://x", "b": ""})` with `enable_circuit_breaker`
at its default, `get_client("a")` is `None` — the client for the
non-empty entry is *not* usable, because `create_service_client` raises
`TypeError` (the `timeout_duration` keyword) and `initialize` swallows
the failure (service_clients.py lines 39-40).  And `get_client("c")`
returns `None` silently instead of raising a distinct "not registered"
condition. -/
theorem C7_scenario_d_counterexample :
    (ServiceClientManager.new.initialize_clients [("a", "http://x"), ("b", "")]
        create_service_client_default_enable).get_client "a" = none
  ∧ (ServiceClientManager.new.initialize_clients [("a", "http://x"), ("b", "")]
        create_service_client_default_enable).get_client "c" = none :=
  ⟨rfl, rfl⟩

/-- **C7 (amended).**  `initialize` never propagates per-entry failures:
empty addresses are skipped with a warning and construction exceptions
are logged and skipped, so the registry itself always comes up
(`initialized = true`).  With the default `enable_circuit_breaker = True`
every construction fails, so no client at all is registered; with the
breaker disabled the non-empty entries yield usable clients.
`get_client` returns `None` — with no distinct "not registered"
exception — both for names that were never registered and before
initialization; callers receive the `None` directly. -/
theorem C7_registry_optional_lookup :
    (ServiceClientManager.new.initialize_clients [("a", "http://x"), ("b", "")]
        create_service_client_default_enable).initialized = true
  ∧ (ServiceClientManager.new.initialize_clients [("a", "http://x"), ("b", "")]
        create_service_client_default_enable).clients = []
  ∧ (ServiceClientManager.new.initialize_clients [("a", "http://x"), ("b", "")] false).initialized = true
  ∧ ((ServiceClientManager.new.initialize_clients [("a", "http://x"), ("b", "")] false).get_client
      "a").isSome = true
  ∧ (ServiceClientManager.new.initialize_clients [("a", "http://x"), ("b", "")] false).get_client "b"
      = none
  ∧ (ServiceClientManager.new.initialize_clients [("a", "http://x"), ("b", "")] false).get_client "c"
      = none
  ∧ ServiceClientManager.new.get_client "a" = none := by
  refine ⟨rfl, rfl, rfl, rfl, rfl, rfl, rfl⟩

/-- **C8.**  A `GracefulServiceCall` whose body raises a `ServiceError`:
the scope suppresses propagation (`__aexit__` returns `True`),
`has_error()` is true afterwards, and `get_result()` is the fallback
producer's return value; if the fallback producer itself raises, the
scope still suppresses the original error and leaves the result unset. -/
theorem C8_graceful_scope_fallback (V : Type) (service_name : String) (v : V)
    (e : ServiceError) (m : String) :
    ((GracefulServiceCall.init service_name (some (Except.ok v))).aexit
        (BodyOutcome.raisedServiceError e)).2 = true
  ∧ (((GracefulServiceCall.init service_name (some (Except.ok v))).aexit
        (BodyOutcome.raisedServiceError e)).1.has_error = true)
  ∧ (((GracefulServiceCall.init service_name (some (Except.ok v))).aexit
        (BodyOutcome.raisedServiceError e)).1.get_result = some v)
  ∧ (((GracefulServiceCall.init service_name (some (Except.error m : Except String V))).aexit
        (BodyOutcome.raisedServiceError e)).2 = true)
  ∧ (((GracefulServiceCall.init service_name (some (Except.error m : Except String V))).aexit
        (BodyOutcome.raisedServiceError e)).1.has_error = true)
  ∧ (((GracefulServiceCall.init service_name (some (Except.error m : Except String V))).aexit
        (BodyOutcome.raisedServiceError e)).1.get_result = none) :=
  ⟨rfl, rfl, rfl, rfl, rfl, rfl⟩

/-- **C6.**  `EnhancedRetryConfig.get_delay` computes
`base_delay * 2^(attempt-1)` (exponential), `base_delay * attempt`
(linear) or `base_delay` (fixed), each capped at `max_delay`, and for
nonnegative `base_delay`/`max_delay` the result satisfies
`0 ≤ delay ≤ max_delay`. -/
theorem C6_retry_delay_formula_and_bounds (cfg : EnhancedRetryConfig) (attempt : Nat)
    (_h1 : 1 ≤ attempt) (_h2 : attempt ≤ cfg.max_attempts)
    (hbase : 0 ≤ cfg.base_delay) (hmax : 0 ≤ cfg.max_delay) :
    (cfg.strategy = RetryStrategy.EXPONENTIAL_BACKOFF →
      cfg.get_delay attempt = min (cfg.base_delay * 2 ^ (attempt - 1)) cfg.max_delay)
  ∧ (cfg.strategy = RetryStrategy.LINEAR_BACKOFF →
      cfg.get_delay attempt = min (cfg.base_delay * (attempt : ℚ)) cfg.max_delay)
  ∧ (cfg.strategy = RetryStrategy.FIXED_DELAY →
      cfg.get_delay attempt = min cfg.base_delay cfg.max_delay)
  ∧ 0 ≤ cfg.get_delay attempt
  ∧ cfg.get_delay attempt ≤ cfg.max_delay := by
  refine ⟨?_, ?_, ?_, ?_, ?_⟩
  · intro h; simp [EnhancedRetryConfig.get_delay, h]
  · intro h; simp [EnhancedRetryConfig.get_delay, h]
  · intro h; simp [EnhancedRetryConfig.get_delay, h]
  · unfold EnhancedRetryConfig.get_delay
    rcases hs : cfg.strategy
    · exact le_min (mul_nonneg hbase (pow_nonneg (by norm_num) _)) hmax
    · exact le_min hbase hmax
    · exact le_min (mul_nonneg hbase (by positivity)) hmax
  · unfold EnhancedRetryConfig.get_delay
    rcases hs : cfg.strategy <;> exact min_le_right _ _

/-- Witness for C6: the default configuration at attempt 2. -/
theorem C6_retry_delay_formula_and_bounds_witness :
    1 ≤ 2 ∧ 2 ≤ EnhancedRetryConfig.default.max_attempts
  ∧ (0 : ℚ) ≤ EnhancedRetryConfig.default.base_delay
  ∧ (0 : ℚ) ≤ EnhancedRetryConfig.default.max_delay
  ∧ 0 ≤ EnhancedRetryConfig.default.get_delay 2
  ∧ EnhancedRetryConfig.default.get_delay 2 ≤ EnhancedRetryConfig.default.max_delay := by
  have h := C6_retry_delay_formula_and_bounds EnhancedRetryConfig.default 2
    (by norm_num) (by norm_num [EnhancedRetryConfig.default])
    (by norm_num [EnhancedRetryConfig.default]) (by norm_num [EnhancedRetryConfig.default])
  exact ⟨by norm_num, by norm_num [EnhancedRetryConfig.default],
    by norm_num [EnhancedRetryConfig.default], by norm_num [EnhancedRetryConfig.default],
    h.2.2.2.1, h.2.2.2.2⟩

/-- **C5 (counterexample).**  A verb-method call on a client that has a
circuit breaker attached fails with `AttributeError` (the missing
`is_open`), which is not one of the five `ServiceError` kinds: a raw
non-`ServiceError` exception escapes the client. -/
theorem C5_breaker_attribute_error_counterexample :
    (verb_call (fun _ => (none : Option Unit)) EnhancedRetryConfig.default "product-service"
        (some (CircuitBreaker.init 5 60))
        (fun _ => TransportOutcome.response ⟨200, "ok"⟩) (fun _ => 3) ⟨0, 0, none⟩).1
      = Except.error (ExecFailure.attributeError "is_open")
  ∧ (ExecFailure.attributeError "is_open").isServiceError = false :=
  ⟨rfl, rfl⟩

/-- Without a breaker, the `except` handler either retries or raises a
classified `ServiceError` — never an `AttributeError`. -/
theorem except_handler_none_raisedFinal (cfg : EnhancedRetryConfig) (service_name : String)
    (attempt : Nat) (e : PyExc) (st : ClientState) (f : ExecFailure) (st' : ClientState)
    (h : except_handler cfg service_name none attempt e st = (IterResult.raisedFinal f, st')) :
    ∃ se, f = ExecFailure.serviceError se := by
  dsimp only [except_handler] at h
  split at h
  · injection h with h1 _
    injection h1
  · injection h with h1 _
    injection h1 with h2
    exact ⟨_, h2.symm⟩

/-- Without a breaker, one attempt iteration raises only classified
`ServiceError`s. -/
theorem one_attempt_none_raisedFinal (cfg : EnhancedRetryConfig) (service_name : String)
    (attempt : Nat) (now : Int) (t : TransportOutcome) (st : ClientState) (f : ExecFailure)
    (st' : ClientState)
    (h : one_attempt cfg service_name none attempt now t st = (IterResult.raisedFinal f, st')) :
    ∃ se, f = ExecFailure.serviceError se := by
  dsimp only [one_attempt] at h
  cases t with
  | response r =>
    dsimp only at h
    split at h
    · split at h
      · injection h with h1 _
        injection h1
      · exact except_handler_none_raisedFinal _ _ _ _ _ _ _ h
    · injection h with h1 _
      injection h1
  | timeoutExc => exact except_handler_none_raisedFinal _ _ _ _ _ _ _ h
  | connectExc m => exact except_handler_none_raisedFinal _ _ _ _ _ _ _ h
  | otherExc m => exact except_handler_none_raisedFinal _ _ _ _ _ _ _ h

/-- Without a breaker, the whole attempt loop raises only classified
`ServiceError`s. -/
theorem retry_loop_none_err (cfg : EnhancedRetryConfig) (service_name : String)
    (transport : Nat → TransportOutcome) (now : Nat → Int) :
    ∀ (rem attempt : Nat) (lastE : Option ServiceError) (st : ClientState) (slept : ℚ)
      (f : ExecFailure) (st' : ClientState) (d : ℚ),
      retry_loop cfg service_name none transport now attempt rem lastE st slept
        = (LoopResult.err f, st', d) →
      ∃ se, f = ExecFailure.serviceError se := by
  intro rem
  induction rem with
  | zero =>
    intro attempt lastE st slept f st' d h
    dsimp only [retry_loop] at h
    injection h with h1 _
    injection h1
  | succ n ih =>
    intro attempt lastE st slept f st' d h
    rw [retry_loop] at h
    rcases hoa : one_attempt cfg service_name none attempt (now attempt) (transport attempt) st
      with ⟨ir, st1⟩
    rw [hoa] at h
    cases ir with
    | returned r =>
      injection h with h1 _
      injection h1
    | raisedFinal f1 =>
      injection h with h1 _
      injection h1 with h2
      subst h2
      exact one_attempt_none_raisedFinal _ _ _ _ _ _ _ _ hoa
    | nextAttempt e1 d1 => exact ih _ _ _ _ _ _ _ h

/-- **C5 (amended).**  For a client *without* a circuit breaker, every
failure that propagates out of a verb method is a classified
`ServiceError` (one of the five kinds of `ErrorKind`): no raw transport
exception escapes `_execute_with_retry`, and the verb methods' JSON
handling converts a decode failure into a raw-response value rather than
an exception.  (With a breaker attached, the separate `AttributeError`
of `C2`/the counterexample escapes instead.) -/
theorem C5_no_breaker_closed_error_taxonomy (J : Type) (parse : String → Option J)
    (cfg : EnhancedRetryConfig) (service_name : String)
    (transport : Nat → TransportOutcome) (now : Nat → Int) (st : ClientState) :
    (∃ v, (verb_call parse cfg service_name none transport now st).1 = Except.ok v)
  ∨ (∃ se, (verb_call parse cfg service_name none transport now st).1
      = Except.error (ExecFailure.serviceError se)) := by
  have hmain := retry_loop_none_err cfg service_name transport now cfg.max_attempts 1 none st 0
  unfold verb_call execute_with_retry
  rcases hre : retry_loop cfg service_name none transport now 1 cfg.max_attempts none st 0
    with ⟨lr, st2, slept2⟩
  cases lr with
  | ok r => exact Or.inl ⟨_, rfl⟩
  | err f =>
    obtain ⟨se, hse⟩ := hmain f st2 slept2 hre
    subst hse
    exact Or.inr ⟨se, rfl⟩
  | exhausted le =>
    cases le with
    | none => exact Or.inr ⟨_, rfl⟩
    | some e => exact Or.inr ⟨e, rfl⟩

/-- **C4 (counterexample).**  The claim says an unexpected exception
leaves the breaker's `state` unchanged.  But `call` performs the
timeout-driven reset *before* running the function (custom_circuit_breaker.py
lines 61-63): a breaker opened at time 1 with `recovery_timeout = 1`,
called at time 2 with a function raising an unexpected exception, ends
in `HALF_OPEN` although it started `OPEN` — the state did change. -/
theorem C4_unexpected_exception_state_change_counterexample :
    (runTrace 1 1 [(1, CallOutcome.expectedFailure)]).state = CircuitState.OPEN
  ∧ ((runTrace 1 1 [(1, CallOutcome.expectedFailure)]).call 2 CallOutcome.unexpectedFailure).1
      = CallResult.raisedUnexpected
  ∧ ((runTrace 1 1 [(1, CallOutcome.expectedFailure)]).call 2 CallOutcome.unexpectedFailure).2.state
      = CircuitState.HALF_OPEN := by
  refine ⟨rfl, rfl, rfl⟩

/-- The reset check fires only from the `OPEN` state. -/
theorem state_open_of_should_attempt_reset (b : CircuitBreaker) (now : Int)
    (h : b.should_attempt_reset now = true) : b.state = CircuitState.OPEN := by
  by_contra hne
  rw [CircuitBreaker.should_attempt_reset] at h
  simp [hne] at h

/-- **C4 (amended).**  When the protected function raises an exception
not matching `expected_exception` (result `raisedUnexpected`), the
breaker's `failure_count` and `last_failure_time` are unchanged and its
`state` is unchanged except for the timeout-driven `OPEN → HALF_OPEN`
reset that precedes execution — in particular an unexpected exception
never moves the breaker to `OPEN`.  Moreover no outcome other than an
`expected_exception` failure ever increases `failure_count`. -/
theorem C4_unexpected_exception_frame (b : CircuitBreaker) (now : Int) (o : CallOutcome) :
    ((b.call now CallOutcome.unexpectedFailure).1 = CallResult.raisedUnexpected →
      (b.call now CallOutcome.unexpectedFailure).2.failure_count = b.failure_count
      ∧ (b.call now CallOutcome.unexpectedFailure).2.last_failure_time = b.last_failure_time
      ∧ ((b.call now CallOutcome.unexpectedFailure).2.state = b.state
         ∨ (b.state = CircuitState.OPEN
            ∧ (b.call now CallOutcome.unexpectedFailure).2.state = CircuitState.HALF_OPEN)))
  ∧ (o = CallOutcome.success ∨ o = CallOutcome.unexpectedFailure →
      (b.call now o).2.failure_count ≤ b.failure_count) := by
  constructor
  · intro _
    by_cases hr : b.should_attempt_reset now = true
    · have hopen : b.state = CircuitState.OPEN := state_open_of_should_attempt_reset b now hr
      simp [CircuitBreaker.call, CircuitBreaker.reset_step, hr, hopen]
    · have hr' : b.should_attempt_reset now = false := by
        cases hb : b.should_attempt_reset now
        · rfl
        · exact absurd hb hr
      by_cases hopen : b.state = CircuitState.OPEN
      · simp [CircuitBreaker.call, CircuitBreaker.reset_step, hr', hopen]
      · simp [CircuitBreaker.call, CircuitBreaker.reset_step, hr', hopen]
  · intro ho
    by_cases hr : b.should_attempt_reset now = true
    · rcases ho with ho | ho <;> subst ho <;>
        simp [CircuitBreaker.call, CircuitBreaker.reset_step, hr, CircuitBreaker.on_success]
    · have hr' : b.should_attempt_reset now = false := by
        cases hb : b.should_attempt_reset now
        · rfl
        · exact absurd hb hr
      by_cases hopen : b.state = CircuitState.OPEN
      · rcases ho with ho | ho <;> subst ho <;>
          simp [CircuitBreaker.call, CircuitBreaker.reset_step, hr', hopen]
      · rcases ho with ho | ho <;> subst ho <;>
          simp [CircuitBreaker.call, CircuitBreaker.reset_step, hr', hopen,
            CircuitBreaker.on_success]

/-- Witness for C4, at the breaker opened by one failure at time 1. -/
theorem C4_unexpected_exception_frame_witness :
    ((runTrace 1 1 [(1, CallOutcome.expectedFailure)]).call 2 CallOutcome.unexpectedFailure).2.failure_count
      = (runTrace 1 1 [(1, CallOutcome.expectedFailure)]).failure_count
  ∧ ((runTrace 1 1 [(1, CallOutcome.expectedFailure)]).call 2 CallOutcome.unexpectedFailure).2.last_failure_time
      = (runTrace 1 1 [(1, CallOutcome.expectedFailure)]).last_failure_time
  ∧ ((runTrace 1 1 [(1, CallOutcome.expectedFailure)]).call 2 CallOutcome.success).2.failure_count
      ≤ (runTrace 1 1 [(1, CallOutcome.expectedFailure)]).failure_count := by
  have h := C4_unexpected_exception_frame (runTrace 1 1 [(1, CallOutcome.expectedFailure)]) 2
    CallOutcome.success
  exact ⟨(h.1 (by decide)).1, (h.1 (by decide)).2.1, h.2 (Or.inl rfl)⟩

/-- The reset check never fires outside the `OPEN` state. -/
theorem should_attempt_reset_of_not_open (b : CircuitBreaker) (now : Int)
    (h : b.state ≠ CircuitState.OPEN) : b.should_attempt_reset now = false := by
  rw [CircuitBreaker.should_attempt_reset]
  simp [h]

/-- From `CLOSED`, an `expected_exception` failure goes straight to
`_on_failure`. -/
theorem call_closed_failure (b : CircuitBreaker) (now : Int)
    (h : b.state = CircuitState.CLOSED) :
    b.call now CallOutcome.expectedFailure = (CallResult.raisedExpected, b.on_failure now) := by
  have hr : b.should_attempt_reset now = false :=
    should_attempt_reset_of_not_open b now (by simp [h])
  simp [CircuitBreaker.call, CircuitBreaker.reset_step, hr, h]

/-- Below the threshold, `_on_failure` counts the failure and stays put. -/
theorem on_failure_below_threshold (b : CircuitBreaker) (now : Int)
    (h : b.failure_count + 1 < b.failure_threshold) :
    b.on_failure now
      = { b with failure_count := b.failure_count + 1, last_failure_time := some now } := by
  rw [CircuitBreaker.on_failure]
  exact if_neg (by dsimp only; omega)

/-- At or above the threshold, `_on_failure` opens the circuit. -/
theorem on_failure_at_threshold (b : CircuitBreaker) (now : Int)
    (h : b.failure_threshold ≤ b.failure_count + 1) :
    b.on_failure now
      = { b with failure_count := b.failure_count + 1, last_failure_time := some now, state := CircuitState.OPEN } := by
  rw [CircuitBreaker.on_failure]
  exact if_pos (by dsimp only; omega)

/-- A run of consecutive failures that stays strictly below the
threshold leaves a `CLOSED` breaker `CLOSED` and counts each failure. -/
theorem applyFailures_closed :
    ∀ (times : List Int) (b : CircuitBreaker),
      b.state = CircuitState.CLOSED →
      b.failure_count + times.length < b.failure_threshold →
      (applyFailures b times).state = CircuitState.CLOSED
      ∧ (applyFailures b times).failure_count = b.failure_count + times.length
      ∧ (applyFailures b times).failure_threshold = b.failure_threshold := by
  intro times
  induction times with
  | nil =>
    intro b h _
    exact ⟨h, by simp [applyFailures], rfl⟩
  | cons t ts ih =>
    intro b h hlt
    have hstep : applyFailures b (t :: ts)
        = applyFailures ((b.call t CallOutcome.expectedFailure).2) ts := rfl
    have hlen : b.failure_count + (t :: ts).length
        = (b.failure_count + 1) + ts.length := by simp; omega
    have hcount : b.failure_count + 1 < b.failure_threshold := by
      simp at hlt
      omega
    rw [hstep, call_closed_failure b t h, on_failure_below_threshold b t hcount]
    obtain ⟨s1, s2, s3⟩ := ih
      { b with failure_count := b.failure_count + 1, last_failure_time := some t }
      (by simpa using h) (by simp at hlt ⊢; omega)
    refine ⟨s1, ?_, by simpa using s3⟩
    rw [s2]
    simp
    omega

/-- The reachability invariant of the breaker: whenever the circuit is
`OPEN` or `HALF_OPEN` the threshold has been met, and an `OPEN` circuit
carries a positive failure timestamp. -/
def BreakerInv (b : CircuitBreaker) : Prop :=
  ((b.state = CircuitState.OPEN ∨ b.state = CircuitState.HALF_OPEN) →
    b.failure_threshold ≤ b.failure_count)
  ∧ (b.state = CircuitState.OPEN → ∃ t, b.last_failure_time = some t ∧ 0 < t)

/-- `reset_step` preserves the invariant. -/
theorem BreakerInv.reset_step {b : CircuitBreaker} (h : BreakerInv b) (now : Int) :
    BreakerInv (b.reset_step now) := by
  rw [CircuitBreaker.reset_step]
  split
  · next hr =>
    have hopen := state_open_of_should_attempt_reset b now hr
    exact ⟨fun _ => h.1 (Or.inl hopen), by simp⟩
  · exact h

/-- `CircuitBreaker.call` written with the `let` for the reset step
zeta-expanded (definitional restatement used for rewriting). -/
theorem call_cases (b : CircuitBreaker) (now : Int) (o : CallOutcome) :
    b.call now o =
      if (b.reset_step now).state = CircuitState.OPEN then
        (CallResult.rejected, b.reset_step now)
      else
        match o with
        | CallOutcome.success => (CallResult.returned, (b.reset_step now).on_success)
        | CallOutcome.expectedFailure =>
          (CallResult.raisedExpected, (b.reset_step now).on_failure now)
        | CallOutcome.unexpectedFailure => (CallResult.raisedUnexpected, b.reset_step now) := rfl

/-- `call` preserves the invariant for calls at positive times. -/
theorem BreakerInv.call {b : CircuitBreaker} (h : BreakerInv b) (now : Int)
    (hnow : 0 < now) (o : CallOutcome) : BreakerInv (b.call now o).2 := by
  have h1 : BreakerInv (b.reset_step now) := h.reset_step now
  rw [call_cases]
  split
  · exact h1
  · next hnop =>
    cases o with
    | success =>
      refine ⟨fun hs => ?_, fun hs => ?_⟩ <;>
        simp [CircuitBreaker.on_success] at hs
    | expectedFailure =>
      by_cases hge : (b.reset_step now).failure_threshold ≤ (b.reset_step now).failure_count + 1
      · rw [on_failure_at_threshold _ _ hge]
        exact ⟨fun _ => hge, fun _ => ⟨now, rfl, hnow⟩⟩
      · have hlt : (b.reset_step now).failure_count + 1 < (b.reset_step now).failure_threshold := by
          omega
        rw [on_failure_below_threshold _ _ hlt]
        refine ⟨fun hs => ?_, fun hs => ?_⟩
        · simp at hs
          have := h1.1 hs
          omega
        · simp at hs
          exact absurd hs hnop
    | unexpectedFailure => exact h1

/-- The invariant is preserved along any fold of calls at positive
times. -/
theorem foldl_call_inv :
    ∀ (events : List (Int × CallOutcome)) (b : CircuitBreaker),
      BreakerInv b → (∀ p ∈ events, 0 < p.1) →
      BreakerInv (events.foldl (fun acc p => (acc.call p.1 p.2).2) b) := by
  intro events
  induction events with
  | nil =>
    intro b hb _
    simpa using hb
  | cons e es ih =>
    intro b hb hpos
    rw [List.foldl_cons]
    exact ih _ (hb.call e.1 (hpos e (by simp)) e.2) (fun p hp => hpos p (by simp [hp]))

/-- The invariant holds for every breaker reachable from the initial
state along a trace of positive call times. -/
theorem runTrace_inv (ft : Nat) (rt : Int) (events : List (Int × CallOutcome))
    (hpos : ∀ p ∈ events, 0 < p.1) : BreakerInv (runTrace ft rt events) := by
  have hinit : BreakerInv (CircuitBreaker.init ft rt) := by
    constructor <;> intro hs <;> simp [CircuitBreaker.init] at hs
  rw [runTrace]
  exact foldl_call_inv events _ hinit hpos

/-- From `HALF_OPEN`, a success closes the circuit and resets the
failure count. -/
theorem call_halfopen_success (b : CircuitBreaker) (now : Int)
    (hs : b.state = CircuitState.HALF_OPEN) :
    (b.call now CallOutcome.success).2.state = CircuitState.CLOSED
    ∧ (b.call now CallOutcome.success).2.failure_count = 0 := by
  have hr : b.should_attempt_reset now = false :=
    should_attempt_reset_of_not_open b now (by simp [hs])
  constructor <;>
    simp [call_cases, CircuitBreaker.reset_step, hr, hs, CircuitBreaker.on_success]

/-- From `HALF_OPEN` with the threshold met (as on every reachable
breaker), an `expected_exception` failure reopens the circuit with a
fresh failure timestamp. -/
theorem call_halfopen_failure (b : CircuitBreaker) (now : Int)
    (hs : b.state = CircuitState.HALF_OPEN) (hinv : b.failure_threshold ≤ b.failure_count) :
    (b.call now CallOutcome.expectedFailure).2.state = CircuitState.OPEN
    ∧ (b.call now CallOutcome.expectedFailure).2.last_failure_time = some now := by
  have hr : b.should_attempt_reset now = false :=
    should_attempt_reset_of_not_open b now (by simp [hs])
  have hof := on_failure_at_threshold b now (by omega)
  constructor <;> simp [call_cases, CircuitBreaker.reset_step, hr, hs, hof]

/-- Once `recovery_timeout` has elapsed since a positive
`last_failure_time`, the pre-execution reset moves `OPEN` to
`HALF_OPEN`. -/
theorem reset_step_elapsed (b : CircuitBreaker) (t now : Int)
    (hs : b.state = CircuitState.OPEN) (hlft : b.last_failure_time = some t) (hpos : 0 < t)
    (helapsed : b.recovery_timeout ≤ now - t) :
    (b.reset_step now).state = CircuitState.HALF_OPEN := by
  have hr : b.should_attempt_reset now = true := by
    rw [CircuitBreaker.should_attempt_reset]
    simp [hs, hlft]
    exact ⟨by omega, helapsed⟩
  simp [CircuitBreaker.reset_step, hr]

/-- No terminal state: from any breaker whose `OPEN` state carries a
positive failure timestamp (as on every reachable breaker), some later
successful call drives the state back to `CLOSED`. -/
theorem call_success_closes (b : CircuitBreaker)
    (hinv : b.state = CircuitState.OPEN → ∃ t, b.last_failure_time = some t ∧ 0 < t) :
    ∃ now, (b.call now CallOutcome.success).2.state = CircuitState.CLOSED := by
  by_cases hs : b.state = CircuitState.OPEN
  · obtain ⟨t, hlft, hpos⟩ := hinv hs
    refine ⟨t + max b.recovery_timeout 0 + 1, ?_⟩
    have hmax : b.recovery_timeout ≤ max b.recovery_timeout 0 := le_max_left _ _
    have hreset : (b.reset_step (t + max b.recovery_timeout 0 + 1)).state
        = CircuitState.HALF_OPEN :=
      reset_step_elapsed b t _ hs hlft hpos (by omega)
    rw [call_cases, if_neg (by rw [hreset]; simp)]
    simp [CircuitBreaker.on_success]
  · refine ⟨1, ?_⟩
    have hr : b.should_attempt_reset 1 = false := should_attempt_reset_of_not_open b 1 hs
    rw [call_cases, if_neg (by simp [CircuitBreaker.reset_step, hr, hs])]
    simp [CircuitBreaker.reset_step, hr, CircuitBreaker.on_success]

/-- **C1.**  The shared `CircuitBreaker` follows the specified state
machine: it starts `CLOSED`; any `k < failure_threshold` consecutive
expected failures leave it `CLOSED`; the `failure_threshold`-th
consecutive failure opens it; once `recovery_timeout` has elapsed since
the (positive) `last_failure_time`, the next request's pre-execution
reset moves it to `HALF_OPEN`; from `HALF_OPEN` a success closes it and
resets the failure count to 0, and an expected failure (on any reachable
breaker driven by positive call times) reopens it with a fresh
`last_failure_time`; and there is no terminal state — from any reachable
breaker a later successful call returns it to `CLOSED`. -/
theorem C1_circuit_breaker_state_machine (ft : Nat) (rt : Int) (hft : 0 < ft) :
    (CircuitBreaker.init ft rt).state = CircuitState.CLOSED
  ∧ (∀ times : List Int, times.length < ft →
      (applyFailures (CircuitBreaker.init ft rt) times).state = CircuitState.CLOSED)
  ∧ (∀ (times : List Int) (now : Int), times.length = ft - 1 →
      ((applyFailures (CircuitBreaker.init ft rt) times).call now
          CallOutcome.expectedFailure).2.state = CircuitState.OPEN)
  ∧ (∀ (b : CircuitBreaker) (t now : Int), b.state = CircuitState.OPEN →
      b.last_failure_time = some t → 0 < t → b.recovery_timeout ≤ now - t →
      (b.reset_step now).state = CircuitState.HALF_OPEN)
  ∧ (∀ (b : CircuitBreaker) (now : Int), b.state = CircuitState.HALF_OPEN →
      (b.call now CallOutcome.success).2.state = CircuitState.CLOSED
      ∧ (b.call now CallOutcome.success).2.failure_count = 0)
  ∧ (∀ (events : List (Int × CallOutcome)) (now : Int), (∀ p ∈ events, 0 < p.1) →
      (runTrace ft rt events).state = CircuitState.HALF_OPEN →
      ((runTrace ft rt events).call now CallOutcome.expectedFailure).2.state = CircuitState.OPEN
      ∧ ((runTrace ft rt events).call now CallOutcome.expectedFailure).2.last_failure_time
          = some now)
  ∧ (∀ events : List (Int × CallOutcome), (∀ p ∈ events, 0 < p.1) →
      ∃ now, ((runTrace ft rt events).call now CallOutcome.success).2.state
        = CircuitState.CLOSED) := by
  refine ⟨rfl, ?_, ?_, ?_, ?_, ?_, ?_⟩
  · intro times hlen
    exact (applyFailures_closed times (CircuitBreaker.init ft rt) rfl
      (by simpa [CircuitBreaker.init] using hlen)).1
  · intro times now hlen
    obtain ⟨s1, s2, s3⟩ := applyFailures_closed times (CircuitBreaker.init ft rt) rfl
      (by simp [CircuitBreaker.init, hlen]; omega)
    rw [call_closed_failure _ now s1]
    rw [show ((CallResult.raisedExpected,
        (applyFailures (CircuitBreaker.init ft rt) times).on_failure now)).2
      = (applyFailures (CircuitBreaker.init ft rt) times).on_failure now from rfl]
    rw [on_failure_at_threshold _ now
      (by rw [s3, s2, hlen]; simp [CircuitBreaker.init]; omega)]
  · exact fun b t now hs hlft hpos helapsed => reset_step_elapsed b t now hs hlft hpos helapsed
  · exact fun b now hs => call_halfopen_success b now hs
  · intro events now hpos hs
    have hinv := runTrace_inv ft rt events hpos
    exact call_halfopen_failure _ now hs (hinv.1 (Or.inr hs))
  · intro events hpos
    exact call_success_closes _ (runTrace_inv ft rt events hpos).2

/-- Witness for C1: threshold 2, recovery timeout 5, concrete traces. -/
theorem C1_circuit_breaker_state_machine_witness :
    (CircuitBreaker.init 2 5).state = CircuitState.CLOSED
  ∧ (applyFailures (CircuitBreaker.init 2 5) [1]).state = CircuitState.CLOSED
  ∧ ((applyFailures (CircuitBreaker.init 2 5) [1]).call 2
      CallOutcome.expectedFailure).2.state = CircuitState.OPEN
  ∧ ((runTrace 2 5 [(1, CallOutcome.expectedFailure),
        (2, CallOutcome.expectedFailure)]).reset_step 9).state = CircuitState.HALF_OPEN
  ∧ ((runTrace 2 5 [(1, CallOutcome.expectedFailure), (2, CallOutcome.expectedFailure),
        (8, CallOutcome.unexpectedFailure)]).call 9
      CallOutcome.expectedFailure).2.state = CircuitState.OPEN := by
  have h := C1_circuit_breaker_state_machine 2 5 (by decide)
  refine ⟨h.1, h.2.1 [1] (by decide), h.2.2.1 [1] 2 (by decide),
    h.2.2.2.1 (runTrace 2 5 [(1, CallOutcome.expectedFailure),
      (2, CallOutcome.expectedFailure)]) 2 9 (by decide) (by decide) (by decide) (by decide),
    (h.2.2.2.2.2.1 [(1, CallOutcome.expectedFailure), (2, CallOutcome.expectedFailure),
      (8, CallOutcome.unexpectedFailure)] 9 (by decide) (by decide)).1⟩
